import Mathlib

/-!
Verification of the measurement-processing engine of an Android GNSS-logger
to RINEX converter.

Embedding conventions:
* Python floats are modelled as exact rationals (`ℚ`); the claims under
  scrutiny are about the arithmetic formulas, not float rounding.
* Python `round` (banker's rounding, ties to even) is `pyRound`; `int(x)`
  and the integer part of `math.modf` truncate toward zero (`pyTrunc`).
* Python `datetime` values are modelled as a rational number of seconds
  since the GPS time origin 1980-01-06 00:00:00 (a Sunday, so the day
  index 0 has ISO weekday 7).
* Python `dict`s compare by contents, ignoring insertion order, so they
  are modelled canonically as key-sorted association lists.
* `raise ValueError` / `KeyError` become `Except` errors; `try/except
  ValueError` becomes a match that only catches the `valueError` branch.
-/

/-- Python `round`: round half to even, returning an integer.  Stated with
the executable `Rat.floor` (the fractional part is `q - Rat.floor q`); on a
non-tie it is the nearest integer `⌊q + 1/2⌋`. -/
def pyRound (q : ℚ) : ℤ :=
  if q - Rat.floor q = 1/2 then (if Rat.floor q % 2 = 0 then Rat.floor q else Rat.floor q + 1)
  else Rat.floor (q + 1/2)

/-- Python `int(_)` / integer part of `math.modf`: truncation toward zero
(the ceiling `-⌊-q⌋` on negative input). -/
def pyTrunc (q : ℚ) : ℤ :=
  if 0 ≤ q then Rat.floor q else -Rat.floor (-q)

/-- ISO weekday (Monday = 1 … Sunday = 7) of the day that lies `d` days
after the GPS time origin 1980-01-06, which was a Sunday. -/
def isoWeekday (d : ℤ) : ℤ :=
  if d % 7 = 0 then 7 else d % 7

-- Bit flags of android.location.GnssMeasurement.getState()
def STATE_2ND_CODE_LOCK : ℕ := 0x00010000
def STATE_BIT_SYNC : ℕ := 0x00000002
def STATE_CODE_LOCK : ℕ := 0x00000001
def STATE_GAL_E1BC_CODE_LOCK : ℕ := 0x00000400
def STATE_GAL_E1B_PAGE_SYNC : ℕ := 0x00001000
def STATE_GAL_E1C_2ND_CODE_LOCK : ℕ := 0x00000800
def STATE_GLO_STRING_SYNC : ℕ := 0x00000040
def STATE_GLO_TOD_DECODED : ℕ := 0x00000080
def STATE_SBAS_SYNC : ℕ := 0x00002000
def STATE_SUBFRAME_SYNC : ℕ := 0x00000004
def STATE_SYMBOL_SYNC : ℕ := 0x00000020
def STATE_TOW_DECODED : ℕ := 0x00000008

def ADR_STATE_VALID : ℕ := 0x00000001

-- Constants of the source module
def SPEED_OF_LIGHT : ℚ := 299792458
def GPS_WEEKSECS : ℚ := 604800
def NS_TO_S : ℚ := 1/1000000000
def BDST_TO_GPST : ℚ := 14
def GLOT_TO_UTC : ℚ := 10800
def DAYSEC : ℚ := 86400
def CURRENT_GPS_LEAP_SECOND : ℚ := 18

-- Constellation type codes
def CONSTELLATION_GPS : ℤ := 1
def CONSTELLATION_SBAS : ℤ := 2
def CONSTELLATION_GLONASS : ℤ := 3
def CONSTELLATION_QZSS : ℤ := 4
def CONSTELLATION_BEIDOU : ℤ := 5
def CONSTELLATION_GALILEO : ℤ := 6
def CONSTELLATION_UNKNOWN : ℤ := 0

/-- `CONSTELLATION_LETTER` dictionary; `none` models a `KeyError` on a
constellation code outside the table. -/
def CONSTELLATION_LETTER (ctype : ℤ) : Option String :=
  if ctype = CONSTELLATION_GPS then some ("G")
  else if ctype = CONSTELLATION_SBAS then some ("S")
  else if ctype = CONSTELLATION_GLONASS then some ("R")
  else if ctype = CONSTELLATION_QZSS then some ("J")
  else if ctype = CONSTELLATION_BEIDOU then some ("C")
  else if ctype = CONSTELLATION_GALILEO then some ("E")
  else if ctype = CONSTELLATION_UNKNOWN then some ("X")
  else none

/-- Python error values: `process` catches `ValueError` but would let a
`KeyError` escape. -/
inductive PyErr where
  | valueError : String → PyErr
  | keyError : String → PyErr
deriving DecidableEq, Repr

/-- One raw GNSS Logger measurement row, with the fields the engine reads.
`CarrierFrequencyHz = none` models the empty-string sentinel. -/
structure Meas where
  TimeNanos : ℚ
  FullBiasNanos : ℚ
  BiasNanos : ℚ
  TimeOffsetNanos : ℚ
  ReceivedSvTimeNanos : ℚ
  PseudorangeRateMetersPerSecond : ℚ
  AccumulatedDeltaRangeMeters : ℚ
  AccumulatedDeltaRangeState : ℕ
  CarrierFrequencyHz : Option ℚ
  ConstellationType : ℤ
  Svid : ℤ
  State : ℕ
  Cn0DbHz : ℚ
deriving DecidableEq, Repr

/-- `get_rnx_band_from_freq`: RINEX band from the carrier frequency; a
`none` input models the empty-string backwards-compatibility branch
(assume GPS L1, multiplier 154). -/
def get_rnx_band_from_freq (frequency : Option ℚ) : Except String ℕ :=
  let ifreq : ℤ := match frequency with
    | none => 154
    | some f => pyRound (f / 10230000)
  if 154 ≤ ifreq then Except.ok 1
  else if ifreq = 115 then Except.ok 5
  else if ifreq = 153 then Except.ok 2
  else Except.error ("Cannot get Rinex frequency band from frequency")

/-- `get_rnx_attr`: RINEX 3 attribute letter from band, constellation
letter and state bitmask (sequential reassignments of `attr`). -/
def get_rnx_attr (band : ℕ) (constellation : String) (state : ℕ) : String :=
  let attr := "C"
  let attr := if band = 1 ∧ constellation = "E" ∧
      (state &&& STATE_GAL_E1C_2ND_CODE_LOCK = 0 ∧ state &&& STATE_GAL_E1B_PAGE_SYNC ≠ 0)
    then "B" else attr
  let attr := if band = 5 then "Q" else attr
  let attr := if band = 2 ∧ constellation = "C" then "I" else attr
  attr

/-- `get_frequency`: carrier frequency with the GPS L1 default for the
empty field. -/
def get_frequency (m : Meas) : ℚ :=
  match m.CarrierFrequencyHz with
  | none => 154 * 10230000
  | some v => v

/-- `get_constellation`: constellation letter; a missing table entry is a
`KeyError`. -/
def get_constellation (m : Meas) : Except PyErr String :=
  match CONSTELLATION_LETTER m.ConstellationType with
  | some c => Except.ok c
  | none => Except.error (PyErr.keyError ("ConstellationType"))

/-- `get_obscode`: RINEX 3 observable code `<band><attr>`. -/
def get_obscode (m : Meas) : Except PyErr String :=
  match get_rnx_band_from_freq (some (get_frequency m)) with
  | Except.error e => Except.error (PyErr.valueError e)
  | Except.ok band =>
    match get_constellation m with
    | Except.error e => Except.error e
    | Except.ok c => Except.ok (toString band ++ get_rnx_attr band c m.State)

/-- Python `'{0:02d}'.format`: zero-pad to a minimum width of two. -/
def pad02 (n : ℤ) : String :=
  if 0 ≤ n ∧ n < 10 then "0" ++ toString n else toString n

/-- `get_satname`: constellation letter plus two-digit SVID; GLONASS
SVIDs above 50 are frequency-channel numbers and raise `ValueError`. -/
def get_satname (m : Meas) : Except PyErr String :=
  match get_constellation m with
  | Except.error e => Except.error e
  | Except.ok c =>
    let satname := c ++ pad02 m.Svid
    if 50 < m.Svid ∧ c = "R" then
      Except.error (PyErr.valueError ("Skipping measurement for GLONASS sat without OSN " ++ satname))
    else Except.ok satname

/-- `check_adr_state`: requires the ADR_STATE_VALID bit (raises
`ValueError` otherwise). -/
def check_adr_state (m : Meas) : Except String Bool :=
  let state := m.AccumulatedDeltaRangeState
  if state &&& ADR_STATE_VALID = 0 then
    Except.error ("ADR State has ADR_STATE_VALID not valid")
  else Except.ok true

/-- `check_sync_state`: per-constellation (and, for Galileo, per-band)
required `State` bits; any missing bit raises `ValueError`. -/
def check_sync_state (m : Meas) : Except String Bool :=
  let state := m.State
  let constellation := m.ConstellationType
  match get_rnx_band_from_freq (some (get_frequency m)) with
  | Except.error e => Except.error e
  | Except.ok frequency_band =>
    if constellation = CONSTELLATION_GPS then
      if state &&& STATE_CODE_LOCK = 0 then Except.error ("STATE_CODE_LOCK not valid")
      else if state &&& STATE_TOW_DECODED = 0 then Except.error ("STATE_TOW_DECODED not valid")
      else if state &&& STATE_BIT_SYNC = 0 then Except.error ("STATE_BIT_SYNC not valid")
      else if state &&& STATE_SUBFRAME_SYNC = 0 then Except.error ("STATE_SUBFRAME_SYNC not valid")
      else Except.ok true
    else if constellation = CONSTELLATION_SBAS then
      if state &&& STATE_CODE_LOCK = 0 then Except.error ("STATE_CODE_LOCK not valid")
      else if state &&& STATE_TOW_DECODED = 0 then Except.error ("STATE_TOW_DECODED not valid")
      else if state &&& STATE_BIT_SYNC = 0 then Except.error ("STATE_BIT_SYNC not valid")
      else if state &&& STATE_SYMBOL_SYNC = 0 then Except.error ("STATE_SYMBOL_SYNC not valid")
      else if state &&& STATE_SBAS_SYNC = 0 then Except.error ("STATE_SBAS_SYNC not valid")
      else Except.ok true
    else if constellation = CONSTELLATION_GLONASS then
      if state &&& STATE_CODE_LOCK = 0 then Except.error ("STATE_CODE_LOCK not valid")
      else if state &&& STATE_SYMBOL_SYNC = 0 then Except.error ("STATE_SYMBOL_SYNC not valid")
      else if state &&& STATE_BIT_SYNC = 0 then Except.error ("STATE_BIT_SYNC not valid")
      else if state &&& STATE_GLO_TOD_DECODED = 0 then Except.error ("STATE_GLO_TOD_DECODED not valid")
      else if state &&& STATE_GLO_STRING_SYNC = 0 then Except.error ("STATE_GLO_STRING_SYNC not valid")
      else Except.ok true
    else if constellation = CONSTELLATION_QZSS then
      if state &&& STATE_CODE_LOCK = 0 then Except.error ("STATE_CODE_LOCK not valid")
      else if state &&& STATE_TOW_DECODED = 0 then Except.error ("STATE_TOW_DECODED not valid")
      else if state &&& STATE_BIT_SYNC = 0 then Except.error ("STATE_BIT_SYNC not valid")
      else if state &&& STATE_SUBFRAME_SYNC = 0 then Except.error ("STATE_SUBFRAME_SYNC not valid")
      else Except.ok true
    else if constellation = CONSTELLATION_BEIDOU then
      if state &&& STATE_CODE_LOCK = 0 then Except.error ("STATE_CODE_LOCK not valid")
      else if state &&& STATE_TOW_DECODED = 0 then Except.error ("STATE_TOW_DECODED not valid")
      else if state &&& STATE_BIT_SYNC = 0 then Except.error ("STATE_BIT_SYNC not valid")
      else if state &&& STATE_SUBFRAME_SYNC = 0 then Except.error ("STATE_SUBFRAME_SYNC not valid")
      else Except.ok true
    else if constellation = CONSTELLATION_GALILEO then
      if frequency_band = 1 then
        if state &&& STATE_GAL_E1BC_CODE_LOCK = 0 then Except.error ("STATE_GAL_E1BC_CODE_LOCK not valid")
        else if state &&& STATE_GAL_E1C_2ND_CODE_LOCK = 0 then
          -- state indicates presence of the E1B code
          if state &&& STATE_TOW_DECODED = 0 then Except.error ("STATE_TOW_DECODED not valid")
          else if state &&& STATE_BIT_SYNC = 0 then Except.error ("STATE_BIT_SYNC not valid")
          else if state &&& STATE_GAL_E1B_PAGE_SYNC = 0 then Except.error ("STATE_GAL_E1B_PAGE_SYNC not valid")
          else Except.ok true
        else
          -- state indicates presence of the E1C code (the re-check of the
          -- same bit in the source is vacuous here)
          if state &&& STATE_GAL_E1C_2ND_CODE_LOCK = 0 then Except.error ("STATE_GAL_E1C_2ND_CODE_LOCK not valid")
          else Except.ok true
      else if frequency_band = 5 then
        if state &&& STATE_CODE_LOCK = 0 then Except.error ("STATE_CODE_LOCK not valid")
        else if state &&& STATE_TOW_DECODED = 0 then Except.error ("STATE_TOW_DECODED not valid")
        else if state &&& STATE_BIT_SYNC = 0 then Except.error ("STATE_BIT_SYNC not valid")
        else if state &&& STATE_SUBFRAME_SYNC = 0 then Except.error ("STATE_SUBFRAME_SYNC not valid")
        else Except.ok true
      else Except.ok true
    else if constellation = CONSTELLATION_UNKNOWN then
      if state &&& STATE_CODE_LOCK = 0 then Except.error ("STATE_CODE_LOCK not valid")
      else if state &&& STATE_TOW_DECODED = 0 then Except.error ("STATE_TOW_DECODED not valid")
      else Except.ok true
    else Except.error ("ConstellationType is not valid")

/-- `check_week_crossover`: week-crossover correction of the propagation
time. -/
def check_week_crossover (tRxSeconds tTxSeconds : ℚ) : ℚ :=
  let tau := tRxSeconds - tTxSeconds
  if tau > GPS_WEEKSECS / 2 then
    let del_sec : ℚ := pyRound (tau / GPS_WEEKSECS) * GPS_WEEKSECS
    let rho_sec := tau - del_sec
    if rho_sec > 10 then (0 : ℚ) else rho_sec
  else tau

/-- `check_day_crossover`: day-crossover variant of the same correction. -/
def check_day_crossover (tRxSeconds tTxSeconds : ℚ) : ℚ :=
  let tau := tRxSeconds - tTxSeconds
  if tau > DAYSEC / 2 then
    let del_sec : ℚ := pyRound (tau / DAYSEC) * DAYSEC
    let rho_sec := tau - del_sec
    if rho_sec > 10 then (0 : ℚ) else rho_sec
  else tau

/-- `glot_to_gpst`: convert a GLONASS time of day to a GPS time of week.
`gpst_current_epoch` is a GPS epoch in rational seconds since 1980-01-06;
re-building the `datetime` from its fields down to whole seconds is the
floor, and `date + timedelta` arithmetic is plain integer arithmetic on
seconds. -/
def glot_to_gpst (gpst_current_epoch : ℚ) (tod_seconds : ℚ) : ℚ :=
  let tod_sec : ℤ := pyTrunc tod_seconds
  let glo_epoch : ℚ := (Rat.floor gpst_current_epoch : ℚ) + 3 * 3600 - CURRENT_GPS_LEAP_SECOND
  let glo_day : ℤ := Rat.floor (glo_epoch / DAYSEC)
  let glo_tod : ℤ := glo_day * 86400 + tod_sec
  let day_of_week_sec : ℚ := isoWeekday (Rat.floor ((glo_tod : ℚ) / DAYSEC)) * DAYSEC
  day_of_week_sec + tod_seconds - GLOT_TO_UTC + CURRENT_GPS_LEAP_SECOND

/-!
Python dictionaries, modelled as key-sorted association lists (dict
equality in Python ignores insertion order, so the key-sorted list is a
canonical representative).
-/

/-- First-match lookup in an association list (`dict[k]` / `k in dict`). -/
def lookupS {α : Type} (k : String) : List (String × α) → Option α
  | [] => none
  | p :: t => if k = p.1 then some p.2 else lookupS k t

/-- Set a key to a value, keeping the list key-sorted (`dict[k] = v`). -/
def listSet {α : Type} (k : String) (v : α) : List (String × α) → List (String × α)
  | [] => [(k, v)]
  | p :: t =>
    if k = p.1 then (k, v) :: t
    else if k < p.1 then (k, v) :: p :: t
    else p :: listSet k v t

/-- The association list is strictly sorted by key (canonical dict). -/
def Srt {α : Type} (l : List (String × α)) : Prop :=
  l.Pairwise (fun p q => p.1 < q.1)

instance {α : Type} (l : List (String × α)) : Decidable (Srt l) := by
  unfold Srt; infer_instance

/-- Python `r.update(m)`: fold the entries of `m` into `r`, the values of
`m` winning on common keys. -/
def pyUpdate {α : Type} (r m : List (String × α)) : List (String × α) :=
  m.foldl (fun acc p => listSet p.1 p.2 acc) r

/-- A satellite observable map: observable code to value. -/
abbrev ObsMap := List (String × ℚ)

/-- Per-satellite data of an epoch record: satellite name to observables. -/
abbrev SatMap := List (String × ObsMap)

/-- A processed measurement / epoch record: the `epoch` entry (a GPS epoch
in rational seconds since 1980-01-06) plus the satellite sub-maps. -/
structure Rec where
  epoch : ℚ
  sats : SatMap
deriving DecidableEq, Repr

/-- The body of `merge`'s loop over the got satellites: update the
sub-map of a satellite already present, insert a new one wholesale. -/
def mergeSats (res got : SatMap) : SatMap :=
  got.foldl (fun acc p =>
    match lookupS p.1 acc with
    | some old => listSet p.1 (pyUpdate old p.2) acc
    | none => listSet p.1 p.2 acc) res

/-- One iteration of `merge`'s loop: skip `None`, initialize from the
first entry, skip epoch mismatches, fold satellites otherwise. -/
def mergeStep (res m : Option Rec) : Option Rec :=
  match m with
  | none => res
  | some mm =>
    match res with
    | none => some mm
    | some r =>
      if mm.epoch ≠ r.epoch then some r
      else some ⟨r.epoch, mergeSats r.sats mm.sats⟩

/-- `merge`: fold a list of processed measurements into one epoch record. -/
def merge (measdict : List (Option Rec)) : Option Rec :=
  measdict.foldl mergeStep none

/-- `process`: turn one raw measurement into an epoch record holding the
pseudorange, carrier phase, Doppler and CN0 of one satellite.  The dict
literal `{C..., L..., D..., S...}` is stored canonically (C, D, L, S is
the key-sorted order). -/
def process (m : Meas) (fullbiasnanos : Option ℚ) (integerize : Bool)
    (pseudorange_bias : ℚ) : Except PyErr (Option Rec) :=
  match get_satname m with
  | Except.error (PyErr.valueError _) => Except.ok none
  | Except.error e => Except.error e
  | Except.ok satname =>
    match get_obscode m with
    | Except.error e => Except.error e
    | Except.ok obscode =>
      let fullbiasnanos := fullbiasnanos.getD m.FullBiasNanos
      let timenanos := m.TimeNanos
      let biasnanos := m.BiasNanos
      let gpsweek : ℤ := Rat.floor (-fullbiasnanos * NS_TO_S / GPS_WEEKSECS)
      let local_est_GPS_time := timenanos - (fullbiasnanos + biasnanos)
      let gpssow : ℚ := local_est_GPS_time * NS_TO_S - gpsweek * GPS_WEEKSECS
      let frac : ℚ := if integerize then gpssow - pyTrunc (gpssow + 1/2) else 0
      let gpst_epoch : ℚ := gpsweek * GPS_WEEKSECS + (gpssow - frac)
      let timeoffsetnanos := m.TimeOffsetNanos
      let tRxSeconds := gpssow - timeoffsetnanos * NS_TO_S
      let wavelength := SPEED_OF_LIGHT / get_frequency m
      -- `try check_sync_state … except ValueError: range = 0`
      let range : ℚ :=
        match check_sync_state m with
        | Except.error _ => 0
        | Except.ok _ =>
          let tTxSeconds : ℚ :=
            if m.ConstellationType = CONSTELLATION_GLONASS then
              glot_to_gpst gpst_epoch (m.ReceivedSvTimeNanos * NS_TO_S)
            else if m.ConstellationType = CONSTELLATION_BEIDOU then
              m.ReceivedSvTimeNanos * NS_TO_S + BDST_TO_GPST
            else
              m.ReceivedSvTimeNanos * NS_TO_S
          let tau := check_week_crossover tRxSeconds tTxSeconds
          let r := tau * SPEED_OF_LIGHT - pseudorange_bias
          if integerize then r - frac * m.PseudorangeRateMetersPerSecond else r
      -- `try check_adr_state … except ValueError: cphase = 0`
      let cphase : ℚ :=
        match check_adr_state m with
        | Except.error _ => 0
        | Except.ok _ => m.AccumulatedDeltaRangeMeters / wavelength
      let doppler : ℚ := -m.PseudorangeRateMetersPerSecond / wavelength
      let cn0 := m.Cn0DbHz
      Except.ok (some ⟨gpst_epoch,
        [(satname, [("C" ++ obscode, range), ("D" ++ obscode, doppler),
                    ("L" ++ obscode, cphase), ("S" ++ obscode, cn0)])]⟩)

/-- Observable value of one satellite inside an epoch record. -/
def obsOf (r : Rec) (sat code : String) : Option ℚ :=
  match lookupS sat r.sats with
  | none => none
  | some om => lookupS code om

/-- The satellite map is canonical: key-sorted, with key-sorted sub-maps
(every dict built by `process` and `merge` has this shape). -/
def SrtS (s : SatMap) : Prop :=
  Srt s ∧ ∀ p ∈ s, Srt p.2

instance (s : SatMap) : Decidable (SrtS s) := by
  unfold SrtS Srt; infer_instance

/-- All records possibly held by an `Option Rec` carry epoch `e` and a
canonical satellite map. -/
def RecOK (e : ℚ) (x : Option Rec) : Prop :=
  ∀ r, x = some r → r.epoch = e ∧ SrtS r.sats

deriving instance DecidableEq for Except

/-- Example GPS L1 measurement with all required sync and ADR bits set. -/
def measGps : Meas :=
  { TimeNanos := 1000
    FullBiasNanos := -60480000000000000
    BiasNanos := 0
    TimeOffsetNanos := 0
    ReceivedSvTimeNanos := 0
    PseudorangeRateMetersPerSecond := 100
    AccumulatedDeltaRangeMeters := 50
    AccumulatedDeltaRangeState := 1
    CarrierFrequencyHz := some 1575420030
    ConstellationType := 1
    Svid := 5
    State := 15
    Cn0DbHz := 40 }

/-- Example GPS measurement whose sync state and ADR state are both
invalid (all bits clear). -/
def measBadState : Meas := { measGps with State := 0, AccumulatedDeltaRangeState := 0 }

/-- Example GLONASS L1 measurement with all required sync bits set. -/
def measGlo : Meas :=
  { measGps with
      ConstellationType := 3
      Svid := 1
      State := 0xE3
      CarrierFrequencyHz := some 1602000000 }

/-- Example GLONASS measurement carrying a frequency-channel number
instead of an orbital slot number. -/
def measGloFcn : Meas := { measGlo with Svid := 93 }

/-- Example BeiDou B1I measurement with all required sync bits set. -/
def measBds : Meas :=
  { measGps with
      ConstellationType := 5
      Svid := 7
      CarrierFrequencyHz := some 1561097980 }

/-!  Bridge lemmas between the executable `Rat.floor` and Mathlib's
`⌊·⌋`, `⌈·⌉` and `round`.  -/

lemma ratFloor_eq (q : ℚ) : (Rat.floor q : ℤ) = ⌊q⌋ := by
  rw [Rat.floor_def', Rat.floor_def]

lemma pyTrunc_eq (q : ℚ) : pyTrunc q = if 0 ≤ q then ⌊q⌋ else ⌈q⌉ := by
  unfold pyTrunc
  rw [ratFloor_eq, ratFloor_eq, Int.floor_neg, neg_neg]

lemma pyRound_eq_round (q : ℚ) (h : q - Rat.floor q ≠ 1/2) : pyRound q = round q := by
  unfold pyRound
  rw [if_neg h, ratFloor_eq, round_eq]

lemma pyTrunc_add_half (q : ℚ) (h : 0 ≤ q) : pyTrunc (q + 1/2) = round q := by
  rw [pyTrunc_eq, if_pos (by linarith), round_eq]

unseal Rat.mul Rat.inv Rat.add Rat.sub in
/-- Claim C1 (counterexample).  The claim says: whenever the raw difference
`tau = tRxSeconds - tTxSeconds` has magnitude above half a week, the value
returned by `check_week_crossover` lies within the ±10 s window or is
exactly zero.  At `tRxSeconds = 302401`, `tTxSeconds = 0` the magnitude
of `tau` exceeds 302400, yet the function returns −302399, which is
neither zero nor within ±10 s. -/
theorem week_crossover_counterexample :
    (302400 : ℚ) < 302401 - 0 ∧
    check_week_crossover 302401 0 = -302399 ∧
    check_week_crossover 302401 0 < -10 ∧
    check_week_crossover 302401 0 ≠ 0 := by
  exact ⟨by decide, by decide, by decide, by decide⟩

/-- Claim C1 (amended).  For `tau = tRxSeconds - tTxSeconds` above half a
week the function folds `tau` by the nearest whole-week multiple and
returns the residual unless it exceeds +10 s, in which case it returns
zero; so the returned value never exceeds +10 s, but it has no lower
bound (the ±10 s window of the original claim only holds on the upper
side). -/
theorem week_crossover_bounded (tRxSeconds tTxSeconds : ℚ)
    (h : GPS_WEEKSECS / 2 < tRxSeconds - tTxSeconds) :
    check_week_crossover tRxSeconds tTxSeconds ≤ 10 ∧
    (check_week_crossover tRxSeconds tTxSeconds = 0 ∨
      check_week_crossover tRxSeconds tTxSeconds =
        (tRxSeconds - tTxSeconds) -
          pyRound ((tRxSeconds - tTxSeconds) / GPS_WEEKSECS) * GPS_WEEKSECS) := by
  simp only [check_week_crossover]
  rw [if_pos h]
  split_ifs with h2
  · exact ⟨by norm_num, Or.inl rfl⟩
  · exact ⟨le_of_not_lt h2, Or.inr rfl⟩

unseal Rat.mul Rat.inv Rat.add Rat.sub in
theorem week_crossover_bounded_witness :
    GPS_WEEKSECS / 2 < (604820 : ℚ) - 0 ∧
    (check_week_crossover 604820 0 ≤ 10 ∧
      (check_week_crossover 604820 0 = 0 ∨
        check_week_crossover 604820 0 =
          ((604820 : ℚ) - 0) - pyRound (((604820 : ℚ) - 0) / GPS_WEEKSECS) * GPS_WEEKSECS)) :=
  ⟨by decide, week_crossover_bounded 604820 0 (by decide)⟩

/-- Claim C10.  Whenever `tau = tRxSeconds - tTxSeconds` is at most half a
week (302400 s) — in particular for arbitrarily large negative
differences — `check_week_crossover` returns `tau` unchanged: no week
correction is applied and the value is never zeroed. -/
theorem week_crossover_no_correction (tRxSeconds tTxSeconds : ℚ)
    (h : tRxSeconds - tTxSeconds ≤ 302400) :
    check_week_crossover tRxSeconds tTxSeconds = tRxSeconds - tTxSeconds := by
  simp only [check_week_crossover]
  rw [if_neg (not_lt.mpr (by rw [show GPS_WEEKSECS / 2 = 302400 by norm_num [GPS_WEEKSECS]]; exact h))]

unseal Rat.mul Rat.inv Rat.add Rat.sub in
theorem week_crossover_no_correction_witness :
    (0 : ℚ) - 604800 ≤ 302400 ∧
    check_week_crossover 0 604800 = (0 : ℚ) - 604800 :=
  ⟨by decide, week_crossover_no_correction 0 604800 (by decide)⟩

unseal Rat.mul Rat.inv Rat.add Rat.sub in
/-- Claim C2 (counterexample).  The claim says any frequency whose integer
multiplier `round(f / 10.23e6)` is at least 152 is classified as band 1.
At `f = 1565190000` the multiplier is 153 ≥ 152, yet the classifier
returns band 2, not band 1. -/
theorem band_classification_counterexample :
    pyRound ((1565190000 : ℚ) / 10230000) = 153 ∧ (152 : ℤ) ≤ 153 ∧
    get_rnx_band_from_freq (some 1565190000) = Except.ok 2 ∧ (2 : ℕ) ≠ 1 := by
  exact ⟨by decide, by decide, by decide, by decide⟩

/-- Claim C2 (amended).  With `ifreq = round(f / 10.23e6)`: `ifreq ≥ 154`
yields band 1, `ifreq = 115` yields band 5, `ifreq = 153` yields band 2,
and any other multiplier raises the classification `ValueError` (fatal
for that single measurement only). -/
theorem band_classification (f : ℚ) (ifreq : ℤ)
    (hif : ifreq = pyRound (f / 10230000)) :
    (154 ≤ ifreq → get_rnx_band_from_freq (some f) = Except.ok 1) ∧
    (ifreq = 115 → get_rnx_band_from_freq (some f) = Except.ok 5) ∧
    (ifreq = 153 → get_rnx_band_from_freq (some f) = Except.ok 2) ∧
    (ifreq < 154 → ifreq ≠ 115 → ifreq ≠ 153 →
      ∃ msg, get_rnx_band_from_freq (some f) = Except.error msg) := by
  subst hif
  simp only [get_rnx_band_from_freq]
  refine ⟨fun h => ?_, fun h => ?_, fun h => ?_, fun h1 h2 h3 => ?_⟩
  · rw [if_pos h]
  · rw [if_neg (by omega), if_pos h]
  · rw [if_neg (by omega), if_neg (by omega), if_pos h]
  · rw [if_neg (by omega), if_neg h2, if_neg h3]
    exact ⟨_, rfl⟩

unseal Rat.mul Rat.inv Rat.add Rat.sub in
theorem band_classification_witness :
    ((154 : ℤ) ≤ pyRound ((1575420030 : ℚ) / 10230000) ∧
      get_rnx_band_from_freq (some 1575420030) = Except.ok 1) ∧
    (pyRound ((1176450050 : ℚ) / 10230000) = 115 ∧
      get_rnx_band_from_freq (some 1176450050) = Except.ok 5) ∧
    (pyRound ((1554960000 : ℚ) / 10230000) = 152 ∧
      ∃ msg, get_rnx_band_from_freq (some 1554960000) = Except.error msg) :=
  ⟨⟨by decide, (band_classification 1575420030 _ rfl).1 (by decide)⟩,
   ⟨by decide, (band_classification 1176450050 _ rfl).2.1 (by decide)⟩,
   ⟨by decide, (band_classification 1554960000 _ rfl).2.2.2 (by decide) (by decide) (by decide)⟩⟩

/-- Claim C9.  `get_rnx_attr` returns `C` by default, `Q` on band 5, `I`
on band 2 for BeiDou, and for Galileo band 1 it returns `B` exactly when
the E1C second-code-lock bit is absent and the E1B page-sync bit is
present, else `C`. -/
theorem attr_spec (band : ℕ) (c : String) (state : ℕ) :
    (band = 5 → get_rnx_attr band c state = "Q") ∧
    (band = 2 → c = "C" → get_rnx_attr band c state = "I") ∧
    (band = 1 → c = "E" → get_rnx_attr band c state =
      (if state &&& STATE_GAL_E1C_2ND_CODE_LOCK = 0 ∧ state &&& STATE_GAL_E1B_PAGE_SYNC ≠ 0
       then "B" else "C")) ∧
    (band ≠ 5 → ¬(band = 2 ∧ c = "C") → ¬(band = 1 ∧ c = "E") →
      get_rnx_attr band c state = "C") := by
  refine ⟨fun h => ?_, fun h hc => ?_, fun h hc => ?_, fun h5 h2 h1 => ?_⟩
  · subst h; simp [get_rnx_attr]
  · subst h; subst hc; simp [get_rnx_attr]
  · subst h; subst hc
    simp only [get_rnx_attr]
    split_ifs with hb <;> simp_all
  · simp only [get_rnx_attr]
    split_ifs <;> simp_all

unseal Rat.mul Rat.inv Rat.add Rat.sub in
theorem attr_spec_witness :
    get_rnx_attr 5 "G" 0 = "Q" ∧ get_rnx_attr 2 "C" 0 = "I" ∧
    get_rnx_attr 1 "E" 4096 = "B" ∧ get_rnx_attr 1 "E" 0 = "C" ∧
    get_rnx_attr 1 "G" 0 = "C" := by
  refine ⟨(attr_spec 5 "G" 0).1 rfl, (attr_spec 2 "C" 0).2.1 rfl rfl, ?_, ?_, ?_⟩
  · rw [(attr_spec 1 "E" 4096).2.2.1 rfl rfl]; decide
  · rw [(attr_spec 1 "E" 0).2.2.1 rfl rfl]; decide
  · exact (attr_spec 1 "G" 0).2.2.2 (by decide) (by decide) (by decide)

/-- Claim C8.  With a valid constellation letter, `get_satname` fails
exactly when the constellation is GLONASS and Svid > 50; otherwise it
returns the letter followed by the two-digit zero-padded Svid; and a
`get_satname` failure makes `process` return `None` (the error is caught,
not propagated). -/
theorem satname_spec (m : Meas) (c : String)
    (hc : get_constellation m = Except.ok c) :
    ((∃ e, get_satname m = Except.error e) ↔ (c = "R" ∧ 50 < m.Svid)) ∧
    (¬(c = "R" ∧ 50 < m.Svid) → get_satname m = Except.ok (c ++ pad02 m.Svid)) ∧
    (∀ e, get_satname m = Except.error e →
      ∀ fullbiasnanos integerize pseudorange_bias,
        process m fullbiasnanos integerize pseudorange_bias = Except.ok none) := by
  by_cases h : 50 < m.Svid ∧ c = "R"
  · have hsat : get_satname m =
        Except.error (PyErr.valueError
          ("Skipping measurement for GLONASS sat without OSN " ++ (c ++ pad02 m.Svid))) := by
      simp only [get_satname, hc, if_pos h]
    refine ⟨⟨fun _ => ⟨h.2, h.1⟩, fun _ => ⟨_, hsat⟩⟩,
      fun hn => absurd ⟨h.2, h.1⟩ hn,
      fun e he fbo ig pb => ?_⟩
    simp only [process, hsat]
  · have hsat : get_satname m = Except.ok (c ++ pad02 m.Svid) := by
      simp only [get_satname, hc, if_neg h]
    refine ⟨⟨fun ⟨e, he⟩ => ?_, fun hcr => absurd ⟨hcr.2, hcr.1⟩ h⟩,
      fun _ => hsat, fun e he fbo ig pb => ?_⟩
    · rw [hsat] at he; exact absurd he (by simp)
    · rw [hsat] at he; exact absurd he (by simp)

theorem satname_spec_witness :
    get_constellation measGloFcn = Except.ok ("R") ∧
    (∃ e, get_satname measGloFcn = Except.error e) ∧
    process measGloFcn none false 0 = Except.ok none ∧
    get_satname measGps = Except.ok ("G" ++ pad02 measGps.Svid) := by
  have h := satname_spec measGloFcn "R" rfl
  obtain ⟨e, he⟩ := h.1.mpr ⟨rfl, by decide⟩
  exact ⟨rfl, ⟨e, he⟩, h.2.2 e he none false 0,
    (satname_spec measGps "G" rfl).2.1 (by decide)⟩

/-- Claim C4.  With the effective full bias `fb` (caller-supplied, else the
measurement's own `FullBiasNanos`), `process` computes the GPS week as
`⌊-fb⋅1e-9/604800⌋`, the time of week as
`(TimeNanos - (fb + BiasNanos))⋅1e-9 - week⋅604800`, and returns the epoch
`1980-01-06 + week` weeks `+ (tow - frac)` seconds, where `frac` is the
remainder of rounding `tow` to the nearest whole second when `integerize`
is set (the code's `int(gpssow + 0.5)` agrees with rounding to nearest for
the non-negative times of week quantified over here) and `0` otherwise. -/
theorem process_epoch_formula (m : Meas) (fullbiasnanos : Option ℚ)
    (integerize : Bool) (pseudorange_bias : ℚ) (s oc : String)
    (hs : get_satname m = Except.ok s) (hoc : get_obscode m = Except.ok oc)
    (fb : ℚ) (hfb : fb = fullbiasnanos.getD m.FullBiasNanos)
    (week : ℤ) (hweek : week = ⌊-fb * (1/1000000000) / 604800⌋)
    (tow : ℚ) (htow : tow = (m.TimeNanos - (fb + m.BiasNanos)) * (1/1000000000) - week * 604800)
    (hpos : 0 ≤ tow) :
    ∃ r, process m fullbiasnanos integerize pseudorange_bias = Except.ok (some r) ∧
      r.epoch = week * 604800 + (tow - (if integerize then tow - round tow else 0)) := by
  simp only [process, hs, hoc]
  refine ⟨_, rfl, ?_⟩
  have hW : GPS_WEEKSECS = 604800 := rfl
  have hN : NS_TO_S = 1/1000000000 := rfl
  have hweek' : Rat.floor (-(fullbiasnanos.getD m.FullBiasNanos) * NS_TO_S / GPS_WEEKSECS) = week := by
    rw [ratFloor_eq, hW, hN, hweek, hfb]
  have htow' : (m.TimeNanos - (fullbiasnanos.getD m.FullBiasNanos + m.BiasNanos)) * NS_TO_S -
      (week : ℚ) * GPS_WEEKSECS = tow := by
    rw [hW, hN, htow, hfb]
  rw [hweek', htow', hW]
  cases integerize with
  | false => simp
  | true =>
    have : pyTrunc (tow + 2⁻¹) = round tow := by
      rw [show (2⁻¹ : ℚ) = 1/2 by norm_num]; exact pyTrunc_add_half tow hpos
    simp [this]

unseal Rat.mul Rat.inv Rat.add Rat.sub in
theorem process_epoch_formula_witness :
    get_satname measGps = Except.ok ("G05") ∧
    get_obscode measGps = Except.ok ("1C") ∧
    measGps.FullBiasNanos = Option.getD none measGps.FullBiasNanos ∧
    (100 : ℤ) = ⌊-measGps.FullBiasNanos * (1/1000000000) / 604800⌋ ∧
    (1/1000000 : ℚ) =
      (measGps.TimeNanos - (measGps.FullBiasNanos + measGps.BiasNanos)) * (1/1000000000) -
        (100 : ℤ) * 604800 ∧
    ∃ r, process measGps none true 0 = Except.ok (some r) ∧ r.epoch = 60480000 := by
  have h1 : get_satname measGps = Except.ok ("G05") := by decide
  have h2 : get_obscode measGps = Except.ok ("1C") := by decide
  have h3 : measGps.FullBiasNanos = Option.getD none measGps.FullBiasNanos := rfl
  have h4 : (100 : ℤ) = ⌊-measGps.FullBiasNanos * (1/1000000000) / 604800⌋ := by decide
  have h5 : (1/1000000 : ℚ) =
      (measGps.TimeNanos - (measGps.FullBiasNanos + measGps.BiasNanos)) * (1/1000000000) -
        (100 : ℤ) * 604800 := by decide
  obtain ⟨r, hr, he⟩ := process_epoch_formula measGps none true 0 "G05" "1C" h1 h2
    measGps.FullBiasNanos h3 100 h4 (1/1000000) h5 (by decide)
  refine ⟨h1, h2, h3, h4, h5, r, hr, ?_⟩
  rw [he]; decide

lemma string_append_right_ne (p q t : String) (h : p ≠ q) : p ++ t ≠ q ++ t := by
  intro heq
  apply h
  have hd : p.data ++ t.data = q.data ++ t.data := by
    simpa using congrArg String.data heq
  have hpq : p.data = q.data := List.append_cancel_right hd
  cases p
  cases q
  exact congrArg String.mk hpq

/-- Claim C3.  For a measurement with a valid satellite id and a
classifiable frequency, `process` always returns a record (never raises,
never returns `None`): a `check_sync_state` failure zeroes the
pseudorange (C code) while Doppler and CN0 are still computed normally,
and a `check_adr_state` failure zeroes the carrier phase (L code). -/
theorem process_degrades (m : Meas) (fullbiasnanos : Option ℚ) (integerize : Bool)
    (pseudorange_bias : ℚ) (s oc : String)
    (hs : get_satname m = Except.ok s) (hoc : get_obscode m = Except.ok oc) :
    ∃ r, process m fullbiasnanos integerize pseudorange_bias = Except.ok (some r) ∧
      (∀ e, check_sync_state m = Except.error e → obsOf r s ("C" ++ oc) = some 0) ∧
      (∀ e, check_adr_state m = Except.error e → obsOf r s ("L" ++ oc) = some 0) ∧
      obsOf r s ("D" ++ oc) =
        some (-m.PseudorangeRateMetersPerSecond / (SPEED_OF_LIGHT / get_frequency m)) ∧
      obsOf r s ("S" ++ oc) = some m.Cn0DbHz := by
  have hDC : ("D" : String) ++ oc ≠ "C" ++ oc := string_append_right_ne _ _ _ (by decide)
  have hLC : ("L" : String) ++ oc ≠ "C" ++ oc := string_append_right_ne _ _ _ (by decide)
  have hLD : ("L" : String) ++ oc ≠ "D" ++ oc := string_append_right_ne _ _ _ (by decide)
  have hSC : ("S" : String) ++ oc ≠ "C" ++ oc := string_append_right_ne _ _ _ (by decide)
  have hSD : ("S" : String) ++ oc ≠ "D" ++ oc := string_append_right_ne _ _ _ (by decide)
  have hSL : ("S" : String) ++ oc ≠ "L" ++ oc := string_append_right_ne _ _ _ (by decide)
  simp only [process, hs, hoc]
  refine ⟨_, rfl, fun e he => ?_, fun e he => ?_, ?_, ?_⟩
  · simp [obsOf, lookupS, he]
  · simp [obsOf, lookupS, he, hLC, hLD]
  · simp [obsOf, lookupS, hDC]
  · simp [obsOf, lookupS, hSC, hSD, hSL]

unseal Rat.mul Rat.inv Rat.add Rat.sub in
theorem process_degrades_witness :
    get_satname measBadState = Except.ok ("G05") ∧
    get_obscode measBadState = Except.ok ("1C") ∧
    check_sync_state measBadState = Except.error ("STATE_CODE_LOCK not valid") ∧
    check_adr_state measBadState = Except.error ("ADR State has ADR_STATE_VALID not valid") ∧
    ∃ r, process measBadState none false 0 = Except.ok (some r) ∧
      obsOf r "G05" ("C" ++ "1C") = some 0 ∧
      obsOf r "G05" ("L" ++ "1C") = some 0 ∧
      obsOf r "G05" ("D" ++ "1C") =
        some (-measBadState.PseudorangeRateMetersPerSecond /
          (SPEED_OF_LIGHT / get_frequency measBadState)) ∧
      obsOf r "G05" ("S" ++ "1C") = some measBadState.Cn0DbHz := by
  have h1 : get_satname measBadState = Except.ok ("G05") := by decide
  have h2 : get_obscode measBadState = Except.ok ("1C") := by decide
  have hsync : check_sync_state measBadState = Except.error ("STATE_CODE_LOCK not valid") := by decide
  have hadr : check_adr_state measBadState =
      Except.error ("ADR State has ADR_STATE_VALID not valid") := by decide
  obtain ⟨r, hr, hC, hL, hD, hS⟩ := process_degrades measBadState none false 0 "G05" "1C" h1 h2
  exact ⟨h1, h2, hsync, hadr, r, hr, hC _ hsync, hL _ hadr, hD, hS⟩

/-- Flooring an already-floored value before dividing by a positive
integer gives the same floor as dividing the exact value: re-building the
`datetime` from its fields down to whole seconds does not change the
derived calendar day. -/
lemma floor_floor_div (x : ℚ) (n : ℕ) (hn : 0 < n) :
    ⌊((⌊x⌋ : ℚ)) / (n : ℚ)⌋ = ⌊x / (n : ℚ)⌋ := by
  have hn' : (0 : ℚ) < n := by exact_mod_cast hn
  apply le_antisymm
  · exact Int.floor_le_floor (by gcongr; exact Int.floor_le x)
  · rw [Int.le_floor, le_div_iff₀ hn']
    have h1 : (⌊x / (n : ℚ)⌋ : ℚ) * n ≤ x := by
      calc (⌊x / (n : ℚ)⌋ : ℚ) * n ≤ (x / n) * n :=
            mul_le_mul_of_nonneg_right (Int.floor_le _) (le_of_lt hn')
        _ = x := div_mul_cancel₀ x (ne_of_gt hn')
    have h2 : ⌊x / (n : ℚ)⌋ * (n : ℤ) ≤ ⌊x⌋ := Int.le_floor.mpr (by push_cast; exact h1)
    exact_mod_cast h2

lemma glot_day_key (t : ℚ) :
    ⌊(((⌊t⌋ : ℤ) : ℚ) + 3 * 3600 - 18) / 86400⌋ = ⌊(t + 3 * 3600 - 18) / 86400⌋ := by
  have e1 : ((⌊t⌋ : ℤ) : ℚ) + 3 * 3600 - 18 = ((⌊t⌋ + 10782 : ℤ) : ℚ) := by push_cast; ring
  have e2 : (⌊t + 3 * 3600 - 18⌋ : ℤ) = ⌊t⌋ + 10782 := by
    rw [show (t + 3 * 3600 - 18 : ℚ) = t + ((10782 : ℤ) : ℚ) by push_cast; ring]
    exact Int.floor_add_int t 10782
  rw [e1, ← e2]
  have h := floor_floor_div (t + 3 * 3600 - 18) 86400 (by norm_num)
  simpa using h

/-- Claim C5.  (a) `glot_to_gpst` returns
`isoWeekday(day)·86400 + TOD − 10800 + 18`, where `day` is the calendar
day obtained by shifting the GPS epoch by +3 hours and −18 leap seconds,
taking that day's midnight, and adding the integer TOD seconds.
(b) `process` uses this value as the GLONASS transmit time, BeiDou
transmit time is `ReceivedSvTimeNanos·1e-9 + 14`, and every other
constellation's transmit time is `ReceivedSvTimeNanos·1e-9`; the
pseudorange is built from the week-crossover-corrected difference of the
reception time and that transmit time. -/
theorem transmit_time_formulas :
    (∀ t tod : ℚ, glot_to_gpst t tod =
      (isoWeekday ⌊(((⌊(t + 3 * 3600 - 18) / 86400⌋ : ℤ) : ℚ) * 86400 + ((pyTrunc tod : ℤ) : ℚ)) / 86400⌋ : ℚ)
        * 86400 + tod - 10800 + 18) ∧
    (∀ (m : Meas) (fullbiasnanos : Option ℚ) (integerize : Bool) (pseudorange_bias : ℚ)
        (s oc : String),
      get_satname m = Except.ok s → get_obscode m = Except.ok oc →
      check_sync_state m = Except.ok true →
      ∀ fb : ℚ, fb = fullbiasnanos.getD m.FullBiasNanos →
      ∀ week : ℤ, week = ⌊-fb * (1/1000000000) / 604800⌋ →
      ∀ tow : ℚ, tow = (m.TimeNanos - (fb + m.BiasNanos)) * (1/1000000000) - week * 604800 →
      ∀ frac : ℚ, frac = (if integerize then tow - pyTrunc (tow + 1/2) else 0) →
      ∀ epoch : ℚ, epoch = week * 604800 + (tow - frac) →
      ∀ tRx : ℚ, tRx = tow - m.TimeOffsetNanos * (1/1000000000) →
      ∃ r, process m fullbiasnanos integerize pseudorange_bias = Except.ok (some r) ∧
        (m.ConstellationType = 3 → obsOf r s ("C" ++ oc) =
          some (check_week_crossover tRx
              (glot_to_gpst epoch (m.ReceivedSvTimeNanos * (1/1000000000))) * 299792458
            - pseudorange_bias
            - (if integerize then frac * m.PseudorangeRateMetersPerSecond else 0))) ∧
        (m.ConstellationType = 5 → obsOf r s ("C" ++ oc) =
          some (check_week_crossover tRx
              (m.ReceivedSvTimeNanos * (1/1000000000) + 14) * 299792458
            - pseudorange_bias
            - (if integerize then frac * m.PseudorangeRateMetersPerSecond else 0))) ∧
        (m.ConstellationType ≠ 3 → m.ConstellationType ≠ 5 → obsOf r s ("C" ++ oc) =
          some (check_week_crossover tRx
              (m.ReceivedSvTimeNanos * (1/1000000000)) * 299792458
            - pseudorange_bias
            - (if integerize then frac * m.PseudorangeRateMetersPerSecond else 0)))) := by
  constructor
  · intro t tod
    simp only [glot_to_gpst, DAYSEC, GLOT_TO_UTC, CURRENT_GPS_LEAP_SECOND,
      ratFloor_eq, glot_day_key]
    push_cast
    ring_nf
  · intro m fullbiasnanos integerize pseudorange_bias s oc hs hoc hsync
      fb hfb week hweek tow htow frac hfrac epoch hepoch tRx htRx
    subst hfb hweek htow hfrac hepoch htRx
    have hW : GPS_WEEKSECS = 604800 := rfl
    have hN : NS_TO_S = 1/1000000000 := rfl
    have hC : SPEED_OF_LIGHT = 299792458 := rfl
    simp only [process, hs, hoc, hsync, CONSTELLATION_GLONASS, CONSTELLATION_BEIDOU,
      hW, hN, hC, ratFloor_eq]
    refine ⟨_, rfl, fun h3 => ?_, fun h5 => ?_, fun h3 h5 => ?_⟩
    · simp only [obsOf, lookupS, h3]
      cases integerize <;> simp [lookupS]
    · simp only [obsOf, lookupS, h5, BDST_TO_GPST]
      cases integerize <;> simp [lookupS]
    · simp only [obsOf, lookupS, if_neg h3, if_neg h5]
      cases integerize <;> simp [lookupS]

unseal Rat.mul Rat.inv Rat.add Rat.sub in
theorem transmit_time_formulas_witness :
    (glot_to_gpst 604800 0 =
      (isoWeekday ⌊(((⌊((604800 : ℚ) + 3 * 3600 - 18) / 86400⌋ : ℤ) : ℚ) * 86400 +
          ((pyTrunc (0 : ℚ) : ℤ) : ℚ)) / 86400⌋ : ℚ) * 86400 + 0 - 10800 + 18) ∧
    get_satname measGlo = Except.ok ("R01") ∧
    get_obscode measGlo = Except.ok ("1C") ∧
    check_sync_state measGlo = Except.ok true ∧
    ∃ r, process measGlo none false 0 = Except.ok (some r) ∧
      obsOf r "R01" ("C" ++ "1C") =
        some (check_week_crossover (1/1000000)
            (glot_to_gpst (60480000 + 1/1000000) (measGlo.ReceivedSvTimeNanos * (1/1000000000)))
              * 299792458
          - 0 - (if false then (0 : ℚ) * measGlo.PseudorangeRateMetersPerSecond else 0)) := by
  have h1 : get_satname measGlo = Except.ok ("R01") := by decide
  have h2 : get_obscode measGlo = Except.ok ("1C") := by decide
  have h3 : check_sync_state measGlo = Except.ok true := by decide
  obtain ⟨r, hr, hGLO, _, _⟩ := transmit_time_formulas.2 measGlo none false 0 "R01" "1C"
    h1 h2 h3 (-60480000000000000) rfl 100 (by decide) (1/1000000) (by decide)
    0 rfl (60480000 + 1/1000000) (by decide) (1/1000000) (by decide)
  exact ⟨transmit_time_formulas.1 604800 0, h1, h2, h3, r, hr, hGLO rfl⟩


/-!  Lemmas about the canonical dict model: `lookupS`, `listSet`,
`pyUpdate` and `mergeSats`.  -/

lemma lookupS_listSet {α : Type} (k k' : String) (v : α) (l : List (String × α)) :
    lookupS k (listSet k' v l) = if k = k' then some v else lookupS k l := by
  induction l with
  | nil => simp [listSet, lookupS]
  | cons p t ih =>
    by_cases h1 : k' = p.1
    · simp only [listSet, if_pos h1]
      subst h1
      simp only [lookupS] <;> (split_ifs <;> rfl)
    · by_cases h2 : k' < p.1
      · simp only [listSet, if_neg h1, if_pos h2, lookupS] <;> (split_ifs <;> rfl)
      · simp only [listSet, if_neg h1, if_neg h2, lookupS, ih]
        split_ifs with a b <;> first
          | rfl
          | exact absurd (b.symm.trans a) h1

lemma mem_listSet {α : Type} {q : String × α} {k : String} {v : α} {l : List (String × α)}
    (h : q ∈ listSet k v l) : q = (k, v) ∨ q ∈ l := by
  induction l with
  | nil => simpa [listSet] using h
  | cons p t ih =>
    by_cases h1 : k = p.1
    · simp only [listSet, if_pos h1, List.mem_cons] at h
      rcases h with h | h
      · exact Or.inl h
      · exact Or.inr (List.mem_cons_of_mem _ h)
    · by_cases h2 : k < p.1
      · simp only [listSet, if_neg h1, if_pos h2, List.mem_cons] at h
        rcases h with h | h | h
        · exact Or.inl h
        · exact Or.inr (by simp [h])
        · exact Or.inr (List.mem_cons_of_mem _ h)
      · simp only [listSet, if_neg h1, if_neg h2, List.mem_cons] at h
        rcases h with h | h
        · exact Or.inr (by simp [h])
        · rcases ih h with h' | h'
          · exact Or.inl h'
          · exact Or.inr (List.mem_cons_of_mem _ h')

lemma Srt_listSet {α : Type} {l : List (String × α)} (k : String) (v : α) (h : Srt l) :
    Srt (listSet k v l) := by
  induction l with
  | nil => simp [listSet, Srt]
  | cons p t ih =>
    simp only [Srt, List.pairwise_cons] at h
    obtain ⟨hp, ht⟩ := h
    by_cases h1 : k = p.1
    · simp only [listSet, if_pos h1, Srt, List.pairwise_cons]
      exact ⟨fun q hq => by rw [h1]; exact hp q hq, ht⟩
    · by_cases h2 : k < p.1
      · simp only [listSet, if_neg h1, if_pos h2, Srt, List.pairwise_cons]
        refine ⟨fun q hq => ?_, hp, ht⟩
        rcases List.mem_cons.mp hq with h' | h'
        · rw [h']; exact h2
        · exact lt_trans h2 (hp q h')
      · simp only [listSet, if_neg h1, if_neg h2, Srt, List.pairwise_cons]
        refine ⟨fun q hq => ?_, ih ht⟩
        rcases mem_listSet hq with h' | h'
        · rw [h']
          exact lt_of_le_of_ne (le_of_not_lt h2) (fun e => h1 e.symm)
        · exact hp q h'

lemma lookupS_eq_none {α : Type} {k : String} {l : List (String × α)}
    (h : ∀ p ∈ l, k ≠ p.1) : lookupS k l = none := by
  induction l with
  | nil => rfl
  | cons p t ih =>
    simp only [lookupS, if_neg (h p (List.mem_cons_self p t))]
    exact ih fun q hq => h q (List.mem_cons_of_mem _ hq)

lemma lookupS_some_mem {α : Type} {k : String} {v : α} {l : List (String × α)}
    (h : lookupS k l = some v) : (k, v) ∈ l := by
  induction l with
  | nil => simp [lookupS] at h
  | cons p t ih =>
    by_cases h1 : k = p.1
    · simp only [lookupS, if_pos h1] at h
      have hv : p.2 = v := by injection h
      subst h1
      rw [← hv]
      exact List.mem_cons_self p t
    · simp only [lookupS, if_neg h1] at h
      exact List.mem_cons_of_mem _ (ih h)

lemma lookupS_mem {α : Type} {q : String × α} {l : List (String × α)}
    (hs : Srt l) (hq : q ∈ l) : lookupS q.1 l = some q.2 := by
  induction l with
  | nil => simp at hq
  | cons p t ih =>
    simp only [Srt, List.pairwise_cons] at hs
    rcases List.mem_cons.mp hq with h | h
    · subst h
      simp [lookupS]
    · have hne : q.1 ≠ p.1 := ne_of_gt (hs.1 q h)
      simp only [lookupS, if_neg hne]
      exact ih hs.2 h

lemma pyUpdate_cons {α : Type} (r : List (String × α)) (p : String × α)
    (t : List (String × α)) :
    pyUpdate r (p :: t) = pyUpdate (listSet p.1 p.2 r) t := rfl

lemma lookupS_pyUpdate {α : Type} (k : String) (r m : List (String × α)) (hm : Srt m) :
    lookupS k (pyUpdate r m) =
      match lookupS k m with
      | some v => some v
      | none => lookupS k r := by
  induction m generalizing r with
  | nil => simp [pyUpdate, lookupS]
  | cons p t ih =>
    simp only [Srt, List.pairwise_cons] at hm
    rw [pyUpdate_cons, ih _ hm.2]
    by_cases h1 : k = p.1
    · subst h1
      have ht : lookupS p.1 t = none :=
        lookupS_eq_none fun q hq => ne_of_lt (hm.1 q hq)
      simp [ht, lookupS, lookupS_listSet]
    · rcases ht : lookupS k t with _ | v
      · simp [lookupS, if_neg h1, lookupS_listSet, ht]
      · simp [lookupS, if_neg h1, ht]

lemma Srt_pyUpdate {α : Type} {r : List (String × α)} (m : List (String × α))
    (hr : Srt r) : Srt (pyUpdate r m) := by
  induction m generalizing r with
  | nil => exact hr
  | cons p t ih => exact pyUpdate_cons r p t ▸ ih (Srt_listSet p.1 p.2 hr)

lemma Srt_ext {α : Type} {a b : List (String × α)} (ha : Srt a) (hb : Srt b)
    (h : ∀ k, lookupS k a = lookupS k b) : a = b := by
  induction a generalizing b with
  | nil =>
    cases b with
    | nil => rfl
    | cons q tb =>
      have := h q.1
      simp [lookupS] at this
  | cons p ta ih =>
    cases b with
    | nil =>
      have := h p.1
      simp [lookupS] at this
    | cons q tb =>
      simp only [Srt, List.pairwise_cons] at ha hb
      have hkey : p.1 = q.1 := by
        by_contra hne
        rcases lt_or_gt_of_ne hne with hlt | hgt
        · have hnb : lookupS p.1 (q :: tb) = none := by
            apply lookupS_eq_none
            intro x hx
            rcases List.mem_cons.mp hx with h' | h'
            · rw [h']; exact ne_of_lt hlt
            · exact ne_of_lt (lt_trans hlt (hb.1 x h'))
          have h1 := h p.1
          rw [hnb] at h1
          simp [lookupS] at h1
        · have hna : lookupS q.1 (p :: ta) = none := by
            apply lookupS_eq_none
            intro x hx
            rcases List.mem_cons.mp hx with h' | h'
            · rw [h']; exact ne_of_lt hgt
            · exact ne_of_lt (lt_trans hgt (ha.1 x h'))
          have h1 := h q.1
          rw [hna] at h1
          simp [lookupS] at h1
      have hval : p.2 = q.2 := by
        have h1 := h p.1
        have hl : lookupS p.1 (p :: ta) = some p.2 := by simp [lookupS]
        have hr : lookupS p.1 (q :: tb) = some q.2 := by simp [lookupS, if_pos hkey]
        rw [hl, hr] at h1
        injection h1
      have htail : ta = tb := by
        apply ih ha.2 hb.2
        intro k
        by_cases hk : k = p.1
        · have hta : lookupS k ta = none :=
            lookupS_eq_none fun x hx => by rw [hk]; exact ne_of_lt (ha.1 x hx)
          have htb : lookupS k tb = none :=
            lookupS_eq_none fun x hx => by rw [hk, hkey]; exact ne_of_lt (hb.1 x hx)
          rw [hta, htb]
        · have h1 := h k
          have hkq : k ≠ q.1 := hkey ▸ hk
          simp only [lookupS, if_neg hk, if_neg hkq] at h1
          exact h1
      have hpq : p = q := by
        cases p
        cases q
        simp only at hkey hval
        rw [hkey, hval]
      rw [hpq, htail]

lemma pyUpdate_assoc {α : Type} {x y z : List (String × α)}
    (hx : Srt x) (hy : Srt y) (hz : Srt z) :
    pyUpdate (pyUpdate x y) z = pyUpdate x (pyUpdate y z) := by
  apply Srt_ext (Srt_pyUpdate z (Srt_pyUpdate y hx)) (Srt_pyUpdate _ hx)
  intro k
  rw [lookupS_pyUpdate k _ z hz, lookupS_pyUpdate k x y hy,
    lookupS_pyUpdate k x _ (Srt_pyUpdate z hy), lookupS_pyUpdate k y z hz]
  cases lookupS k z <;> cases lookupS k y <;> rfl

lemma mergeSats_cons (res : SatMap) (p : String × ObsMap) (t : List (String × ObsMap)) :
    mergeSats res (p :: t) =
      mergeSats (match lookupS p.1 res with
        | some old => listSet p.1 (pyUpdate old p.2) res
        | none => listSet p.1 p.2 res) t := rfl

lemma lookupS_mergeSats (k : String) (res got : SatMap) (hg : Srt got) :
    lookupS k (mergeSats res got) =
      match lookupS k got with
      | none => lookupS k res
      | some om =>
        some (match lookupS k res with
          | some old => pyUpdate old om
          | none => om) := by
  induction got generalizing res with
  | nil => simp [mergeSats, lookupS]
  | cons p t ih =>
    simp only [Srt, List.pairwise_cons] at hg
    rw [mergeSats_cons, ih _ hg.2]
    by_cases h1 : k = p.1
    · subst h1
      have ht : lookupS p.1 t = none :=
        lookupS_eq_none fun q hq => ne_of_lt (hg.1 q hq)
      rw [ht]
      cases hres : lookupS p.1 res with
      | some old => simp [lookupS, hres, lookupS_listSet]
      | none => simp [lookupS, hres, lookupS_listSet]
    · have hstep : lookupS k (match lookupS p.1 res with
          | some old => listSet p.1 (pyUpdate old p.2) res
          | none => listSet p.1 p.2 res) = lookupS k res := by
        cases lookupS p.1 res <;> simp [lookupS_listSet, if_neg h1]
      rw [hstep]
      simp only [lookupS, if_neg h1]

lemma Srt_mergeSats {res : SatMap} (got : SatMap) (hr : Srt res) :
    Srt (mergeSats res got) := by
  induction got generalizing res with
  | nil => exact hr
  | cons p t ih =>
    rw [mergeSats_cons]
    cases lookupS p.1 res <;> exact ih (Srt_listSet _ _ hr)

lemma SrtS_mergeSats {a b : SatMap} (ha : SrtS a) (hb : SrtS b) :
    SrtS (mergeSats a b) := by
  refine ⟨Srt_mergeSats b ha.1, fun p hp => ?_⟩
  have hl : lookupS p.1 (mergeSats a b) = some p.2 :=
    lookupS_mem (Srt_mergeSats b ha.1) hp
  rw [lookupS_mergeSats p.1 a b hb.1] at hl
  cases hgb : lookupS p.1 b with
  | none =>
    rw [hgb] at hl
    exact ha.2 _ (lookupS_some_mem hl)
  | some om =>
    rw [hgb] at hl
    cases hga : lookupS p.1 a with
    | none =>
      rw [hga] at hl
      have : om = p.2 := by injection hl
      rw [← this]
      exact hb.2 _ (lookupS_some_mem hgb)
    | some old =>
      rw [hga] at hl
      have : pyUpdate old om = p.2 := by injection hl
      rw [← this]
      exact Srt_pyUpdate om (ha.2 _ (lookupS_some_mem hga))

lemma mergeSats_assoc {a b c : SatMap} (ha : SrtS a) (hb : SrtS b) (hc : SrtS c) :
    mergeSats (mergeSats a b) c = mergeSats a (mergeSats b c) := by
  apply Srt_ext (Srt_mergeSats c (Srt_mergeSats b ha.1)) (Srt_mergeSats _ ha.1)
  intro k
  rw [lookupS_mergeSats k _ c hc.1, lookupS_mergeSats k a b hb.1,
    lookupS_mergeSats k a _ (Srt_mergeSats c hb.1), lookupS_mergeSats k b c hc.1]
  cases hcz : lookupS k c with
  | none => cases lookupS k b <;> rfl
  | some omc =>
    cases hby : lookupS k b with
    | none => cases lookupS k a <;> rfl
    | some omb =>
      cases haz : lookupS k a with
      | none => rfl
      | some oma =>
        have := pyUpdate_assoc (ha.2 _ (lookupS_some_mem haz))
          (hb.2 _ (lookupS_some_mem hby)) (hc.2 _ (lookupS_some_mem hcz))
        simp [this]

lemma mergeStep_none_right (a : Option Rec) : mergeStep a none = a := rfl

lemma mergeStep_none_left (b : Option Rec) : mergeStep none b = b := by
  cases b <;> rfl

lemma RecOK_mergeStep {e : ℚ} {a b : Option Rec} (ha : RecOK e a) (hb : RecOK e b) :
    RecOK e (mergeStep a b) := by
  intro r hr
  cases b with
  | none => exact ha r hr
  | some mb =>
    cases a with
    | none =>
      exact hb r (by simpa [mergeStep] using hr)
    | some ra =>
      obtain ⟨hae, has⟩ := ha ra rfl
      obtain ⟨hbe, hbs⟩ := hb mb rfl
      simp only [mergeStep] at hr
      rw [if_neg (by rw [hae, hbe]; simp)] at hr
      have hrr : (⟨ra.epoch, mergeSats ra.sats mb.sats⟩ : Rec) = r := by injection hr
      rw [← hrr]
      exact ⟨hae, SrtS_mergeSats has hbs⟩

lemma mergeStep_assoc {e : ℚ} {a b c : Option Rec}
    (ha : RecOK e a) (hb : RecOK e b) (hc : RecOK e c) :
    mergeStep (mergeStep a b) c = mergeStep a (mergeStep b c) := by
  cases c with
  | none => rfl
  | some rc =>
    cases b with
    | none => rfl
    | some rb =>
      obtain ⟨hbe, hbs⟩ := hb rb rfl
      obtain ⟨hce, hcs⟩ := hc rc rfl
      cases a with
      | none => rw [mergeStep_none_left, mergeStep_none_left]
      | some ra =>
        obtain ⟨hae, has⟩ := ha ra rfl
        have e1 : rb.epoch = ra.epoch := by rw [hbe, hae]
        have e2 : rc.epoch = ra.epoch := by rw [hce, hae]
        simp only [mergeStep, e1, e2, ne_eq, not_true_eq_false, if_false, ite_false]
        simp [mergeSats_assoc has hbs hcs]

lemma RecOK_foldl {e : ℚ} (l : List (Option Rec)) (acc : Option Rec)
    (hacc : RecOK e acc) (h : ∀ r : Rec, some r ∈ l → r.epoch = e ∧ SrtS r.sats) :
    RecOK e (l.foldl mergeStep acc) := by
  induction l generalizing acc with
  | nil => exact hacc
  | cons x t ih =>
    rw [List.foldl_cons]
    have hx : RecOK e x := fun r hr => h r (by rw [← hr]; exact List.mem_cons_self x t)
    exact ih _ (RecOK_mergeStep hacc hx)
      fun r hr => h r (List.mem_cons_of_mem _ hr)

lemma RecOK_merge {e : ℚ} (l : List (Option Rec))
    (h : ∀ r : Rec, some r ∈ l → r.epoch = e ∧ SrtS r.sats) : RecOK e (merge l) :=
  RecOK_foldl l none (fun r hr => by simp at hr) h

lemma foldl_mergeStep_distrib {e : ℚ} (l : List (Option Rec)) (acc : Option Rec)
    (hacc : RecOK e acc) (h : ∀ r : Rec, some r ∈ l → r.epoch = e ∧ SrtS r.sats) :
    l.foldl mergeStep acc = mergeStep acc (l.foldl mergeStep none) := by
  induction l generalizing acc with
  | nil => rfl
  | cons x t ih =>
    have hx : RecOK e x := fun r hr => h r (by rw [← hr]; exact List.mem_cons_self x t)
    have ht : ∀ r : Rec, some r ∈ t → r.epoch = e ∧ SrtS r.sats :=
      fun r hr => h r (List.mem_cons_of_mem _ hr)
    rw [List.foldl_cons, List.foldl_cons, mergeStep_none_left,
      ih (mergeStep acc x) (RecOK_mergeStep hacc hx) ht,
      ih x hx ht]
    exact mergeStep_assoc hacc hx (RecOK_merge t ht)

lemma foldl_mergeStep_some (l : List (Option Rec)) (acc : Rec) :
    ∃ res, l.foldl mergeStep (some acc) = some res ∧ res.epoch = acc.epoch := by
  induction l generalizing acc with
  | nil => exact ⟨acc, rfl, rfl⟩
  | cons x t ih =>
    rw [List.foldl_cons]
    cases x with
    | none => exact ih acc
    | some mx =>
      by_cases h : mx.epoch ≠ acc.epoch
      · rw [show mergeStep (some acc) (some mx) = some acc by simp [mergeStep, h]]
        exact ih acc
      · rw [show mergeStep (some acc) (some mx) =
          some ⟨acc.epoch, mergeSats acc.sats mx.sats⟩ by simp [mergeStep, h]]
        exact ih _

lemma merge_eq_none_iff (l : List (Option Rec)) :
    merge l = none ↔ ∀ x ∈ l, x = none := by
  induction l with
  | nil => simp [merge]
  | cons x t ih =>
    cases x with
    | none =>
      have : merge (none :: t) = merge t := rfl
      rw [this]
      simp [ih]
    | some mx =>
      have h1 : merge (some mx :: t) = t.foldl mergeStep (some mx) := rfl
      obtain ⟨res, hres, _⟩ := foldl_mergeStep_some t mx
      rw [h1, hres]
      simp

lemma foldl_mergeStep_filter (e : ℚ) (l : List (Option Rec)) (acc : Rec)
    (hacc : acc.epoch = e) :
    l.foldl mergeStep (some acc) =
      (l.filter (fun x => match x with
        | none => false
        | some mm => decide (mm.epoch = e))).foldl mergeStep (some acc) := by
  induction l generalizing acc with
  | nil => rfl
  | cons x t ih =>
    cases x with
    | none =>
      have hf : (none :: t).filter (fun x => match x with
        | none => false
        | some mm => decide (mm.epoch = e)) = t.filter (fun x => match x with
        | none => false
        | some mm => decide (mm.epoch = e)) := by
        simp [List.filter_cons]
      rw [List.foldl_cons, mergeStep_none_right, hf]
      exact ih acc hacc
    | some mx =>
      by_cases h : mx.epoch = e
      · have hf : (some mx :: t).filter (fun x => match x with
        | none => false
        | some mm => decide (mm.epoch = e)) = some mx :: t.filter (fun x => match x with
        | none => false
        | some mm => decide (mm.epoch = e)) := by
          simp [List.filter_cons, h]
        have hstep : mergeStep (some acc) (some mx) =
            some ⟨acc.epoch, mergeSats acc.sats mx.sats⟩ := by
          simp [mergeStep, h, hacc]
        rw [List.foldl_cons, hf, List.foldl_cons, hstep]
        exact ih _ hacc
      · have hf : (some mx :: t).filter (fun x => match x with
        | none => false
        | some mm => decide (mm.epoch = e)) = t.filter (fun x => match x with
        | none => false
        | some mm => decide (mm.epoch = e)) := by
          simp [List.filter_cons, h]
        have hstep : mergeStep (some acc) (some mx) = some acc := by
          simp [mergeStep, h, hacc]
        rw [List.foldl_cons, hf, hstep]
        exact ih acc hacc

/-- Claim C6.  `merge` returns `None` exactly when the input has no
non-`None` entry; otherwise the result's epoch is the epoch of the first
non-`None` entry, and entries whose epoch differs from it are skipped:
dropping them from the input does not change the result, so every
satellite map folded into the result comes from an entry with the
matching epoch. -/
theorem merge_epoch_consistency :
    (∀ l : List (Option Rec), merge l = none ↔ ∀ x ∈ l, x = none) ∧
    (∀ (l₁ l₂ : List (Option Rec)) (r : Rec), (∀ x ∈ l₁, x = none) →
      ∃ res, merge (l₁ ++ some r :: l₂) = some res ∧ res.epoch = r.epoch ∧
        merge (l₁ ++ some r :: l₂) =
          merge (l₁ ++ some r :: l₂.filter (fun x => match x with
            | none => false
            | some mm => decide (mm.epoch = r.epoch)))) := by
  refine ⟨merge_eq_none_iff, fun l₁ l₂ r h1 => ?_⟩
  have hnil : l₁.foldl mergeStep none = none := (merge_eq_none_iff l₁).mpr h1
  have hmain : merge (l₁ ++ some r :: l₂) = l₂.foldl mergeStep (some r) := by
    rw [merge, List.foldl_append, hnil, List.foldl_cons, mergeStep_none_left]
  have hfil : merge (l₁ ++ some r :: l₂.filter (fun x => match x with
      | none => false
      | some mm => decide (mm.epoch = r.epoch))) =
      (l₂.filter (fun x => match x with
        | none => false
        | some mm => decide (mm.epoch = r.epoch))).foldl mergeStep (some r) := by
    rw [merge, List.foldl_append, hnil, List.foldl_cons, mergeStep_none_left]
  obtain ⟨res, hres, hep⟩ := foldl_mergeStep_some l₂ r
  refine ⟨res, hmain ▸ hres, hep, ?_⟩
  rw [hmain, hfil]
  exact foldl_mergeStep_filter r.epoch l₂ r rfl

theorem merge_epoch_consistency_witness :
    (∀ x ∈ ([none] : List (Option Rec)), x = none) ∧
    ∃ res, merge ([none] ++ some (Rec.mk 0 [("G05", [("C1C", 1)])]) ::
        [some (Rec.mk 1 [("E11", [("C1C", 7)])])]) = some res ∧
      res.epoch = (Rec.mk 0 [("G05", [("C1C", 1)])]).epoch ∧
      merge ([none] ++ some (Rec.mk 0 [("G05", [("C1C", 1)])]) ::
          [some (Rec.mk 1 [("E11", [("C1C", 7)])])]) =
        merge ([none] ++ some (Rec.mk 0 [("G05", [("C1C", 1)])]) ::
          [some (Rec.mk 1 [("E11", [("C1C", 7)])])].filter (fun x => match x with
            | none => false
            | some mm => decide (mm.epoch = (Rec.mk 0 [("G05", [("C1C", 1)])]).epoch))) :=
  ⟨by simp, merge_epoch_consistency.2 [none] [some (Rec.mk 1 [("E11", [("C1C", 7)])])]
    (Rec.mk 0 [("G05", [("C1C", 1)])]) (by simp)⟩

/-- Claim C7 (counterexample).  The claim says `merge` is
order-independent over a fixed-epoch sequence.  The two records below
share the epoch and are canonical single-satellite maps, yet merging them
in the two orders gives different results, because overlapping
(satellite, observable) keys are resolved last-writer-wins. -/
theorem merge_perm_counterexample :
    (Rec.mk 0 [("G05", [("C1C", 1)])]).epoch = (Rec.mk 0 [("G05", [("C1C", 2)])]).epoch ∧
    SrtS (Rec.mk 0 [("G05", [("C1C", 1)])]).sats ∧
    SrtS (Rec.mk 0 [("G05", [("C1C", 2)])]).sats ∧
    List.Perm
      [some (Rec.mk 0 [("G05", [("C1C", 1)])]), some (Rec.mk 0 [("G05", [("C1C", 2)])])]
      [some (Rec.mk 0 [("G05", [("C1C", 2)])]), some (Rec.mk 0 [("G05", [("C1C", 1)])])] ∧
    merge [some (Rec.mk 0 [("G05", [("C1C", 1)])]), some (Rec.mk 0 [("G05", [("C1C", 2)])])] ≠
      merge [some (Rec.mk 0 [("G05", [("C1C", 2)])]), some (Rec.mk 0 [("G05", [("C1C", 1)])])] := by
  exact ⟨rfl, by decide, by decide, by decide, by decide⟩

/-- Claim C7 (amended).  Over fixed-epoch sequences of canonical records,
`merge` is associative — merging a concatenation equals the binary merge
of the two partial merges, so any grouping gives the same result — and
merging the empty sequence yields `None`.  Order-independence does NOT
hold: overlapping (satellite, observable) keys take the value of the
last entry, so permuting the input can change the result. -/
theorem merge_assoc_fixed_epoch :
    merge ([] : List (Option Rec)) = none ∧
    ∀ (e : ℚ) (l₁ l₂ : List (Option Rec)),
      (∀ r : Rec, some r ∈ l₁ ++ l₂ → r.epoch = e ∧ SrtS r.sats) →
      merge (l₁ ++ l₂) = mergeStep (merge l₁) (merge l₂) := by
  refine ⟨rfl, fun e l₁ l₂ h => ?_⟩
  have h1 : ∀ r : Rec, some r ∈ l₁ → r.epoch = e ∧ SrtS r.sats :=
    fun r hr => h r (List.mem_append_left _ hr)
  have h2 : ∀ r : Rec, some r ∈ l₂ → r.epoch = e ∧ SrtS r.sats :=
    fun r hr => h r (List.mem_append_right _ hr)
  rw [merge, List.foldl_append]
  exact foldl_mergeStep_distrib l₂ (l₁.foldl mergeStep none) (RecOK_merge l₁ h1) h2

theorem merge_assoc_fixed_epoch_witness :
    merge ([] : List (Option Rec)) = none ∧
    merge ([some (Rec.mk 0 [("G05", [("C1C", 1)])])] ++
        [some (Rec.mk 0 [("G05", [("L1C", 5)])])]) =
      mergeStep (merge [some (Rec.mk 0 [("G05", [("C1C", 1)])])])
        (merge [some (Rec.mk 0 [("G05", [("L1C", 5)])])]) := by
  refine ⟨merge_assoc_fixed_epoch.1,
    merge_assoc_fixed_epoch.2 0 [some (Rec.mk 0 [("G05", [("C1C", 1)])])]
      [some (Rec.mk 0 [("G05", [("L1C", 5)])])] ?_⟩
  intro r hr
  simp only [List.cons_append, List.nil_append, List.mem_cons, List.not_mem_nil,
    or_false, Option.some.injEq] at hr
  rcases hr with rfl | rfl
  · exact ⟨rfl, by decide⟩
  · exact ⟨rfl, by decide⟩
